import Mathlib

/-!
Shallow embedding of the atoma-colosseum secret-guessing game, covering:

* the confidential compute channel of `src/secret-guessing/src/atoma.rs`
  (request encryption, response decryption, response hash and signature
  verification);
* the event-driven game engine of `src/guess-ai/src/engine.rs`
  (the `NewGuessEvent` and `RotateTdxQuoteEvent` handlers, the event
  classification and page-draining loop of `run`, and the TOML cursor store).

External crates (x25519-dalek, hkdf, aes-gcm, blake2, serde_json, fastcrypto,
toml, the Sui SDK and the network) are modelled as abstract parameters: pure
functions bundled in structures, together with exactly the algebraic laws the
libraries guarantee (Diffie-Hellman commutativity, AEAD round-trip).  All
repository code is translated definitionally from the Rust source.

Machine integers (`u64`) are modelled as `Nat`; none of the embedded code
paths perform wrapping arithmetic.  Byte strings (`Vec<u8>`, `[u8; N]`) are
modelled as `List Nat`.  Base64 wire encodings (`STANDARD.encode` /
`STANDARD.decode`) are modelled by the byte lists they encode: base64 is a
fixed bijection between byte strings and its image, applied and immediately
undone at the wire, so the model carries the underlying bytes.
-/

namespace AtomaColosseum

/-! ## Byte strings and basic constants (src/secret-guessing/src/atoma.rs) -/

/-- Bytes are modelled as lists of naturals (each conceptually `< 256`). -/
abbrev Bytes := List Nat

/-- `PAYLOAD_HASH_SIZE` in atoma.rs. -/
def PAYLOAD_HASH_SIZE : Nat := 32

/-- `PUBLIC_KEY_SIZE` in atoma.rs. -/
def PUBLIC_KEY_SIZE : Nat := 32

/-- `MAX_COMPUTE_UNITS` in atoma.rs. -/
def MAX_COMPUTE_UNITS : Nat := 8192

/-- `NONCE_SIZE` in atoma.rs. -/
def NONCE_SIZE : Nat := 12

/-- `SALT_SIZE` in atoma.rs. -/
def SALT_SIZE : Nat := 16

/-! ## Chat completion request / response types (src/secret-guessing/src/types.rs) -/

/-- A chat message, `types.rs::ChatCompletionMessage` (`role`, `content`,
optional `name`). -/
structure ChatCompletionMessage where
  role : String
  content : String
  name : Option String
deriving DecidableEq, Repr

/-- `types.rs::ChatCompletionRequest`, restricted to the fields the engine
actually populates (`model`, `messages`, `seed`); the remaining optional
sampling knobs are omitted from the model (always `None` in this repository).
-/
structure ChatCompletionRequest where
  model : String
  messages : List ChatCompletionMessage
  seed : Option Nat
deriving DecidableEq, Repr

/-- `types.rs::ChatCompletionChoice`, restricted to the `message` field used
by the engine. -/
structure ChatCompletionChoice where
  message : ChatCompletionMessage
deriving DecidableEq, Repr

/-- `types.rs::ChatCompletionResponse` (`id`, `created`, `model`, `choices`,
optional usage / fingerprint omitted as unused by the verified paths). -/
structure ChatCompletionResponse where
  id : String
  created : Int
  model : String
  choices : List ChatCompletionChoice
deriving DecidableEq, Repr

/-- `atoma.rs::AtomaSdkError`. -/
inductive AtomaSdkError where
  | CreatePublicKeyError (msg : String)
  | DecodeNodePublicKeyError (msg : String)
  | DecryptResponseError (msg : String)
  | EncryptRequestError (msg : String)
  | InvalidPayloadHashLengthError
  | InvalidNonceError (msg : String)
  | KeyExpansionFailed
  | ParseResponseError (msg : String)
  | RequestNodePublicUrlError (msg : String)
  | VerifyResponseHashAndSignatureError (msg : String)
deriving DecidableEq, Repr

/-! ## Abstract cryptographic primitives

The crypto crates used by atoma.rs are modelled as a bundle of pure functions
with the laws those libraries guarantee:

* `diffie_hellman` models `x25519_dalek::StaticSecret::diffie_hellman`;
  `public_key_of` models `x25519_dalek::PublicKey::from(&StaticSecret)`.
  X25519 guarantees `DH(a, pub(b)) = DH(b, pub(a))` (`dh_comm`).
* `hkdf_sha256` models `Hkdf::<Sha256>::new(Some(salt), ikm)` followed by
  `expand(b"", 32)` (the only use in the source; `expand` with output length
  32 never fails, so the model is total).
* `aes256gcm_encrypt` / `aes256gcm_decrypt` model `Aes256Gcm::encrypt` /
  `Aes256Gcm::decrypt`; AEAD correctness gives `dec k n (enc k n m) = some m`
  (`aes_dec_enc`).  Encryption of a byte string never fails.
* `blake2b` models `Blake2b::<U32>` hashing (`utils::blake2b_hash`).
* `serialize_request` / `serialize_response` model `serde_json::to_vec` on
  `ChatCompletionRequest` / `ChatCompletionResponse` (total on these types);
  `parse_response` models `serde_json::from_slice::<ChatCompletionResponse>`.
-/
structure CryptoPrimitives where
  diffie_hellman : Bytes → Bytes → Bytes
  public_key_of : Bytes → Bytes
  hkdf_sha256 : Bytes → Bytes → Bytes
  aes256gcm_encrypt : Bytes → Bytes → Bytes → Bytes
  aes256gcm_decrypt : Bytes → Bytes → Bytes → Option Bytes
  blake2b : Bytes → Bytes
  serialize_request : ChatCompletionRequest → Bytes
  serialize_response : ChatCompletionResponse → Bytes
  parse_response : Bytes → Option ChatCompletionResponse
  dh_comm : ∀ a b, diffie_hellman a (public_key_of b) = diffie_hellman b (public_key_of a)
  aes_dec_enc : ∀ k n m, aes256gcm_decrypt k n (aes256gcm_encrypt k n m) = some m

/-- `types.rs::ConfidentialComputeRequest`: the encrypted envelope POSTed to
`/v1/confidential/chat/completions`.  String fields that are base64-encoded
bytes on the wire are carried as the underlying byte lists. -/
structure ConfidentialComputeRequest where
  nonce : Bytes
  salt : Bytes
  client_dh_public_key : Bytes
  node_dh_public_key : Bytes
  plaintext_body_hash : Bytes
  stack_small_id : Nat
  ciphertext : Bytes
  stream : Option Bool
  model_name : String
  num_compute_units : Option Nat
deriving DecidableEq, Repr

/-- `atoma.rs::utils::encrypt_chat_completions_request`.

Derives the shared secret from the client private key and the node public
key, expands it through HKDF-SHA256 under the salt, AES-256-GCM-encrypts the
serialized request under the nonce, hashes the serialized request with
BLAKE2b-256, and assembles the envelope.  The Rust function returns
`Result` only because `hkdf.expand` (infallible at length 32), AEAD
encryption (infallible on byte slices) and `serde_json::to_vec` (infallible
on this type) are fallible in their general signatures, so the model is
total. -/
def encrypt_chat_completions_request (C : CryptoPrimitives)
    (request : ChatCompletionRequest) (client_private_key : Bytes)
    (node_public_key : Bytes) (model_name : String)
    (nonce : Bytes) (salt : Bytes) (stack_small_id : Nat) :
    ConfidentialComputeRequest :=
  let shared_secret := C.diffie_hellman client_private_key node_public_key
  let symmetric_key := C.hkdf_sha256 salt shared_secret
  let ciphertext :=
    C.aes256gcm_encrypt symmetric_key nonce (C.serialize_request request)
  let payload_hash := C.blake2b (C.serialize_request request)
  { nonce := nonce
    salt := salt
    client_dh_public_key := C.public_key_of client_private_key
    node_dh_public_key := node_public_key
    plaintext_body_hash := payload_hash
    stack_small_id := stack_small_id
    ciphertext := ciphertext
    stream := some false
    model_name := model_name
    num_compute_units := some MAX_COMPUTE_UNITS }

/-- The AEAD portion of `atoma.rs::utils::decrypt_chat_completions_response`:
shared secret via Diffie-Hellman, symmetric key via HKDF-SHA256 under the
salt, plaintext via AES-256-GCM decryption under the nonce. -/
def decrypt_chat_completions_plaintext (C : CryptoPrimitives)
    (ciphertext : Bytes) (client_private_key : Bytes)
    (node_public_key : Bytes) (nonce : Bytes) (salt : Bytes) :
    Option Bytes :=
  let shared_secret := C.diffie_hellman client_private_key node_public_key
  let symmetric_key := C.hkdf_sha256 salt shared_secret
  C.aes256gcm_decrypt symmetric_key nonce ciphertext

/-- `atoma.rs::utils::decrypt_chat_completions_response`: decrypt the
ciphertext (failure → `DecryptResponseError`), then deserialize the plaintext
as a `ChatCompletionResponse` (failure → `ParseResponseError`). -/
def decrypt_chat_completions_response (C : CryptoPrimitives)
    (ciphertext : Bytes) (client_private_key : Bytes)
    (node_public_key : Bytes) (nonce : Bytes) (salt : Bytes) :
    Except AtomaSdkError ChatCompletionResponse :=
  match decrypt_chat_completions_plaintext C ciphertext client_private_key
      node_public_key nonce salt with
  | none => .error (.DecryptResponseError "aead::Error")
  | some plaintext =>
    match C.parse_response plaintext with
    | some response => .ok response
    | none => .error (.ParseResponseError "invalid response JSON")

/-! ## Signature verification (atoma.rs::utils::verify_signature)

`sui_sdk::types::crypto::SignatureScheme`; the flags beyond the three simple
schemes (BLS12381, MultiSig, ZkLogin, Passkey) are carried so that the
`_ => unsupported` arm of the Rust `match` is represented. -/
inductive SignatureScheme where
  | ED25519
  | Secp256k1
  | Secp256r1
  | BLS12381
  | MultiSig
  | ZkLoginAuthenticator
  | PasskeyAuthenticator
deriving DecidableEq, Repr

/-- The data recoverable from a parsed `sui_sdk::types::crypto::Signature`:
its scheme flag, `signature_bytes()` and `public_key_bytes()`. -/
structure ParsedSignature where
  scheme : SignatureScheme
  signature_bytes : Bytes
  public_key_bytes : Bytes
deriving DecidableEq, Repr

/-- The fastcrypto / sui-sdk signature machinery, modelled as abstract pure
functions:

* `parse_signature` models `Signature::from_str` (base64 decode plus flag and
  length validation); `none` is a parse failure.
* `sui_public_key_try_from_bytes` models
  `SuiPublicKey::try_from_bytes(scheme, bytes).is_ok()`.
* `ed25519_verify` / `secp256k1_verify` / `secp256r1_verify` model
  `<scheme>PublicKey::verify(msg, sig).is_ok()`, taking the public key
  bytes, the signature bytes and the message. -/
structure SignatureBackend where
  parse_signature : String → Option ParsedSignature
  sui_public_key_try_from_bytes : SignatureScheme → Bytes → Bool
  ed25519_verify : Bytes → Bytes → Bytes → Bool
  secp256k1_verify : Bytes → Bytes → Bytes → Bool
  secp256r1_verify : Bytes → Bytes → Bytes → Bool

/-- `atoma.rs::utils::verify_signature`: parse the base64 signature, extract
scheme / signature bytes / public key bytes, validate the public key via
`SuiPublicKey::try_from_bytes`, then dispatch on the scheme: Ed25519,
Secp256k1 and Secp256r1 verify the signature over `body_hash`; every other
scheme is unsupported.  Every failure is a
`VerifyResponseHashAndSignatureError`. -/
def verify_signature (B : SignatureBackend)
    (base64_signature : String) (body_hash : Bytes) :
    Except AtomaSdkError Unit :=
  match B.parse_signature base64_signature with
  | none => .error (.VerifyResponseHashAndSignatureError "Failed to parse signature")
  | some sig =>
    if B.sui_public_key_try_from_bytes sig.scheme sig.public_key_bytes then
      match sig.scheme with
      | .ED25519 =>
        if B.ed25519_verify sig.public_key_bytes sig.signature_bytes body_hash then
          .ok ()
        else
          .error (.VerifyResponseHashAndSignatureError "Failed to verify signature")
      | .Secp256k1 =>
        if B.secp256k1_verify sig.public_key_bytes sig.signature_bytes body_hash then
          .ok ()
        else
          .error (.VerifyResponseHashAndSignatureError "Failed to verify signature")
      | .Secp256r1 =>
        if B.secp256r1_verify sig.public_key_bytes sig.signature_bytes body_hash then
          .ok ()
        else
          .error (.VerifyResponseHashAndSignatureError "Failed to verify signature")
      | _ =>
        .error (.VerifyResponseHashAndSignatureError "Currently unsupported signature scheme")
    else
      .error (.VerifyResponseHashAndSignatureError "Failed to extract public key from bytes")

/-- Specification-level predicate: the base64 signature parses, its embedded
public key is valid for its embedded scheme, the scheme is one of Ed25519 /
Secp256k1 / Secp256r1, and the scheme's verifier accepts the signature over
`body_hash`. -/
def signature_verifies (B : SignatureBackend)
    (base64_signature : String) (body_hash : Bytes) : Bool :=
  match B.parse_signature base64_signature with
  | none => false
  | some sig =>
    B.sui_public_key_try_from_bytes sig.scheme sig.public_key_bytes &&
      match sig.scheme with
      | .ED25519 => B.ed25519_verify sig.public_key_bytes sig.signature_bytes body_hash
      | .Secp256k1 => B.secp256k1_verify sig.public_key_bytes sig.signature_bytes body_hash
      | .Secp256r1 => B.secp256r1_verify sig.public_key_bytes sig.signature_bytes body_hash
      | _ => false

/-- `atoma.rs::utils::verify_response_hash_and_signature`: reject when the
server-supplied hash or signature is absent; recompute the BLAKE2b-256 digest
of the re-serialized response body; reject on digest mismatch; finally verify
the signature over the computed digest. -/
def verify_response_hash_and_signature (C : CryptoPrimitives)
    (B : SignatureBackend) (response_body : ChatCompletionResponse)
    (response_hash : Option Bytes) (signature : Option String) :
    Except AtomaSdkError Unit :=
  match response_hash, signature with
  | some provided_hash, some sig =>
    let computed_response_hash := C.blake2b (C.serialize_response response_body)
    if provided_hash ≠ computed_response_hash then
      .error (.VerifyResponseHashAndSignatureError
        "Response hash does not match computed response hash")
    else
      verify_signature B sig computed_response_hash
  | _, _ =>
    .error (.VerifyResponseHashAndSignatureError
      "Response hash or signature is missing")

/-! ## Game engine data model (src/guess-ai/src/config.rs, engine.rs) -/

/-- `config.rs::GuessAiConfig`, field for field (`u64` as `Nat`,
`usize` as `Nat`). -/
structure GuessAiConfig where
  atoma_api_key : String
  twitter_consumer_key : String
  twitter_consumer_secret : String
  twitter_access_token : String
  twitter_access_token_secret : String
  cursor_path : String
  hint_wait_count : Nat
  http_rpc_node_addr : String
  model : String
  limit : Option Nat
  guess_ai_package_id : String
  guess_ai_db : String
  request_timeout : Option Nat
  max_concurrent_requests : Option Nat
  sui_config_path : String
deriving DecidableEq, Repr

/-- `engine.rs::events::PublishEvent`. -/
structure PublishEvent where
  id : String
  manager_id : String
deriving DecidableEq, Repr

/-- `engine.rs::events::NewGuessEvent` (`fee` and `guess_count` arrive as
decimal strings on the wire and are deserialized to `u64`). -/
structure NewGuessEvent where
  fee : Nat
  guess : String
  guess_count : Nat
  treasury_pool_balance : Nat
deriving DecidableEq, Repr

/-- `engine.rs::events::RotateTdxQuoteEvent`. -/
structure RotateTdxQuoteEvent where
  epoch : Nat
  random_seed : Nat
deriving DecidableEq, Repr

/-- `engine.rs::events::TDXQuoteResubmittedEvent`. -/
structure TDXQuoteResubmittedEvent where
  epoch : Nat
  tdx_quote_v4 : Bytes
  public_key_bytes : Bytes
deriving DecidableEq, Repr

/-- `engine.rs::events::GuessAiEvent`. -/
inductive GuessAiEvent where
  | PublishEvent (e : PublishEvent)
  | NewGuessEvent (e : NewGuessEvent)
  | RotateTdxQuoteEvent (e : RotateTdxQuoteEvent)
  | TDXQuoteResubmittedEvent (e : TDXQuoteResubmittedEvent)
deriving DecidableEq, Repr

/-- `engine.rs::events::GuessAiEventIdentifier`. -/
inductive GuessAiEventIdentifier where
  | PublishEvent
  | NewGuessEvent
  | RotateTdxQuoteEvent
  | TDXQuoteResubmittedEvent
deriving DecidableEq, Repr

/-- `client.rs::SuiClientError`. -/
inductive SuiClientError where
  | GetActiveAddressError (msg : String)
  | ParseObjectIDError (msg : String)
  | WithdrawFundsFromTreasuryPoolError (msg : String)
deriving DecidableEq, Repr

/-- `generate_secret.rs::GenerateSecretError`. -/
inductive GenerateSecretError where
  | FailedToSubmitNodePublicKey (e : SuiClientError)
  | FailedToGenerateChatCompletions (e : AtomaSdkError)
  | FailedToParseSecretPromptResponse (msg : String)
deriving DecidableEq, Repr

/-- `engine.rs::GuessAiEngineError` (variants carrying foreign error types
carry a message string instead). -/
inductive GuessAiEngineError where
  | AtomaSdkError (e : AtomaSdkError)
  | ReadEventsError (msg : String)
  | DeserializeError (msg : String)
  | SendComputeUnitsError
  | CursorFileError (msg : String)
  | SerializeCursorError (msg : String)
  | DeserializeCursorError (msg : String)
  | InvalidEvent (v : String)
  | AtomaApiError (msg : String)
  | SuiClientError (e : SuiClientError)
  | GenerateSecretError (e : GenerateSecretError)
  | ShutdownError (msg : String)
  | WalletContextError (msg : String)
  | JoinError (msg : String)
deriving DecidableEq, Repr

/-- `engine.rs::GuessAiEngine`: the mutable engine state.  Fields whose Rust
values are opaque handles to I/O resources (`AtomaSdk`, `EventFilter`,
`SuiClientContext`, `TwitterClient`, the shutdown receiver) are modelled as
opaque naturals — their only role in the verified claims is to be preserved
or replaced as whole values. -/
structure GuessAiEngine where
  atoma_sdk : Nat
  client_private_key : Bytes
  config : GuessAiConfig
  filter : Nat
  random_seed : Nat
  secret : String
  sui_client_ctx : Nat
  twitter_client : Nat
  shutdown_signal : Nat
deriving DecidableEq, Repr

/-- `engine.rs::prompts::GuessPromptResponse`. -/
structure GuessPromptResponse where
  is_correct : Bool
  explanation : String
deriving DecidableEq, Repr

/-- `engine.rs::prompts::HintPromptResponse`. -/
structure HintPromptResponse where
  hint : String
deriving DecidableEq, Repr

/-! ## `handle_rotate_tdx_quote_event` (engine.rs)

The handler draws a fresh X25519 private key from `OsRng` and awaits
`generate_new_secret` (an AI call plus an on-chain public-key submission);
both are external effects, passed in as oracle values: `fresh_private_key`
is the freshly generated key and `generate_secret_result` the outcome of
`generate_new_secret`.  The Rust handler takes `&mut self` and returns
`Result<()>`; the model returns the post-state paired with the optional
error, the pre-state being returned unchanged on failure (the `?` operator
propagates before any field assignment). -/
def handle_rotate_tdx_quote_event (engine : GuessAiEngine)
    (event : RotateTdxQuoteEvent) (fresh_private_key : Bytes)
    (generate_secret_result : Except GenerateSecretError String) :
    GuessAiEngine × Option GuessAiEngineError :=
  match generate_secret_result with
  | .error e => (engine, some (.GenerateSecretError e))
  | .ok secret =>
    ({ engine with
        client_private_key := fresh_private_key
        random_seed := event.random_seed
        secret := secret }, none)

/-! ## `handle_new_guess_event` (engine.rs)

The handler performs up to three external calls, recorded in order in a
trace:

* `judgeGuessCall` — the `confidential_chat_completions` call judging the
  guess against the current secret;
* `withdrawCall sender` — `sui_client_ctx.withdraw_funds_from_treasury_pool`
  directed at the guesser's address;
* `hintCall` — the `confidential_chat_completions` call generating a hint.

Their results are oracle inputs (`judge_chat`, `withdraw_result`,
`hint_chat` — each the content string of `choices[0].message.content` or the
call's error), and serde parsing of the content strings is the abstract
`parse_guess` / `parse_hint`.  Outcomes distinguish Rust panics: the
`todo!()` aborts on the winner / hint social-media paths, and the
remainder-by-zero panic of `guess_count % hint_wait_count` when
`hint_wait_count = 0` (Rust `u64 %` panics on a zero divisor, unlike
`Nat.mod`). -/

/-- An external call made by `handle_new_guess_event`, with the guesser's
`SuiAddress` modelled as an opaque natural. -/
inductive ExtCall where
  | judgeGuessCall
  | withdrawCall (sender : Nat)
  | hintCall
deriving DecidableEq, Repr

/-- How one invocation of `handle_new_guess_event` terminates. -/
inductive HandlerOutcome where
  | ok
  | err (e : GuessAiEngineError)
  | panicTodo
  | panicDivZero
deriving DecidableEq, Repr

/-- `engine.rs::GuessAiEngine::handle_new_guess_event`, as a trace-producing
function.  Control flow mirrors the source: judge the guess (call error or
content-parse error aborts with that error); if `is_correct`, withdraw
treasury funds to `sender` (error aborts) and then hit the winner
`todo!()` panic; otherwise evaluate `guess_count % hint_wait_count`
(panicking if the divisor is zero) and, when it is `0`, make the hint call
(error or parse error aborts; success hits the hint `todo!()` panic). -/
def handle_new_guess_event
    (parse_guess : String → Option GuessPromptResponse)
    (parse_hint : String → Option HintPromptResponse)
    (config : GuessAiConfig) (event : NewGuessEvent) (sender : Nat)
    (judge_chat : Except GuessAiEngineError String)
    (withdraw_result : Except SuiClientError String)
    (hint_chat : Except GuessAiEngineError String) :
    List ExtCall × HandlerOutcome :=
  match judge_chat with
  | .error e => ([.judgeGuessCall], .err e)
  | .ok judge_content =>
    match parse_guess judge_content with
    | none => ([.judgeGuessCall], .err (.DeserializeError judge_content))
    | some answer =>
      if answer.is_correct then
        match withdraw_result with
        | .error e => ([.judgeGuessCall, .withdrawCall sender], .err (.SuiClientError e))
        | .ok _tx_hash => ([.judgeGuessCall, .withdrawCall sender], .panicTodo)
      else
        if config.hint_wait_count = 0 then
          ([.judgeGuessCall], .panicDivZero)
        else if event.guess_count % config.hint_wait_count = 0 then
          match hint_chat with
          | .error e => ([.judgeGuessCall, .hintCall], .err e)
          | .ok hint_content =>
            match parse_hint hint_content with
            | none => ([.judgeGuessCall, .hintCall], .err (.DeserializeError hint_content))
            | some _hint => ([.judgeGuessCall, .hintCall], .panicTodo)
        else
          ([.judgeGuessCall], .ok)

/-! ## Cursor store (engine.rs::cursor)

`sui_sdk::types::event::EventID` is a pair of a transaction digest and an
event sequence number.  The durable file system is modelled as a map from
paths to file contents, with a distinguished `ioError` state standing for a
file whose read fails with an error other than `NotFound`, and a per-path
write-failure flag standing for `std::fs::write` errors.  The TOML codec
(`toml::to_string` / `toml::from_str` on `EventID`) is abstract:
`toml_ser` and `toml_de`, with `toml::from_str` failures as `none`
(`toml::to_string` on an `EventID` is infallible, so serialization is
total). -/

/-- `sui_sdk::types::event::EventID` (`tx_digest` is a base58 digest string
on the wire). -/
structure EventID where
  tx_digest : String
  event_seq : Nat
deriving DecidableEq, Repr

/-- The observable state of one path's file: absent (`NotFound`), present
with contents, or unreadable (any other I/O error). -/
inductive FileContent where
  | absent
  | present (contents : String)
  | ioError
deriving DecidableEq, Repr

/-- The model file system: what each path reads as, and which paths fail on
write. -/
structure FsState where
  read : String → FileContent
  writeFails : String → Bool

/-- `engine.rs::cursor::read_cursor_from_toml_file`: a missing file is
`Ok(None)`; any other read error is a `CursorFileError`; a present file is
parsed as TOML, parse failure being a `DeserializeCursorError`. -/
def read_cursor_from_toml_file (toml_de : String → Option EventID)
    (fs : FsState) (path : String) :
    Except GuessAiEngineError (Option EventID) :=
  match fs.read path with
  | .absent => .ok none
  | .ioError => .error (.CursorFileError path)
  | .present contents =>
    match toml_de contents with
    | some cursor => .ok (some cursor)
    | none => .error (.DeserializeCursorError contents)

/-- `engine.rs::cursor::write_cursor_to_toml_file`: when the cursor is
`Some`, serialize it and overwrite the file (write failure is a
`CursorFileError`); when it is `None`, do nothing and return `Ok`.  Returns
the resulting file system. -/
def write_cursor_to_toml_file (toml_ser : EventID → String)
    (cursor : Option EventID) (fs : FsState) (path : String) :
    Except GuessAiEngineError FsState :=
  match cursor with
  | none => .ok fs
  | some c =>
    if fs.writeFails path then
      .error (.CursorFileError path)
    else
      .ok { fs with
              read := fun p => if p = path then .present (toml_ser c) else fs.read p }

/-! ## The event-subscriber loop (engine.rs::GuessAiEngine::run)

One arm of the `tokio::select!` race: a fetched event page is drained event
by event.  Per event: the type name is classified by
`GuessAiEventIdentifier::from_str` (unknown names are logged and skipped),
the payload is parsed by `events::parse_event` (parse failures are logged
and skipped), and the event is handled (handler errors are logged and the
loop continues; handler panics — the `todo!()` / division panics above —
unwind and abort the loop).  The in-memory cursor is set to the page's
`next_cursor` before the events are drained; after a page with
`has_next_page = false` the cursor is persisted via
`write_cursor_to_toml_file`, whose failure is fatal (`?`). -/

/-- A raw Sui event as the subscriber sees it: the Move type name,
the sender address (opaque natural) and the `parsed_json` payload
(opaque string). -/
structure SuiEventModel where
  name : String
  sender : Nat
  payload : String
deriving DecidableEq, Repr

/-- `engine.rs::events::GuessAiEventIdentifier::from_str`. -/
def guessAiEventIdentifier_from_str (s : String) :
    Except GuessAiEngineError GuessAiEventIdentifier :=
  match s with
  | "PublishEvent" => .ok .PublishEvent
  | "NewGuessEvent" => .ok .NewGuessEvent
  | "RotateTdxQuoteEvent" => .ok .RotateTdxQuoteEvent
  | "TDXQuoteResubmittedEvent" => .ok .TDXQuoteResubmittedEvent
  | _ => .error (.InvalidEvent s)

/-- The serde payload decoders used by `events::parse_event`
(`serde_json::from_value` per event struct), abstract over the opaque
payload strings. -/
structure EventCodec where
  decode_publish : String → Option PublishEvent
  decode_new_guess : String → Option NewGuessEvent
  decode_rotate : String → Option RotateTdxQuoteEvent
  decode_resubmitted : String → Option TDXQuoteResubmittedEvent

/-- `engine.rs::events::parse_event`: decode the payload according to the
identifier; a serde failure is a `DeserializeError`. -/
def parse_event (codec : EventCodec) (event : GuessAiEventIdentifier)
    (value : String) : Except GuessAiEngineError GuessAiEvent :=
  match event with
  | .PublishEvent =>
    match codec.decode_publish value with
    | some e => .ok (.PublishEvent e)
    | none => .error (.DeserializeError value)
  | .NewGuessEvent =>
    match codec.decode_new_guess value with
    | some e => .ok (.NewGuessEvent e)
    | none => .error (.DeserializeError value)
  | .RotateTdxQuoteEvent =>
    match codec.decode_rotate value with
    | some e => .ok (.RotateTdxQuoteEvent e)
    | none => .error (.DeserializeError value)
  | .TDXQuoteResubmittedEvent =>
    match codec.decode_resubmitted value with
    | some e => .ok (.TDXQuoteResubmittedEvent e)
    | none => .error (.DeserializeError value)

/-- The outcome of `handle_event` for one classified event, as an oracle
range: success, a logged error, or a panic (`todo!()` or the division
panic). -/
inductive HandleResult where
  | ok
  | err (e : GuessAiEngineError)
  | panic
deriving DecidableEq, Repr

/-- What the drain loop did with one raw event, in order. -/
inductive PageAction where
  | skippedUnknown (name : String)
  | skippedUnparsable (name : String)
  | handled (ev : GuessAiEvent) (sender : Nat)
  | handledErr (ev : GuessAiEvent) (sender : Nat) (e : GuessAiEngineError)
  | panicked (ev : GuessAiEvent) (sender : Nat)
  | putCursor (cursor : Option EventID)
deriving DecidableEq, Repr

/-- The `for sui_event in data` drain of one page: classify, parse, handle;
classification and parse failures `continue`; handler errors are logged and
the drain continues; a handler panic unwinds, aborting the drain (second
component `true`). -/
def processEvents (codec : EventCodec)
    (handle : GuessAiEvent → Nat → HandleResult) :
    List SuiEventModel → List PageAction × Bool
  | [] => ([], false)
  | e :: rest =>
    match guessAiEventIdentifier_from_str e.name with
    | .error _ =>
      let (acts, panicked) := processEvents codec handle rest
      (.skippedUnknown e.name :: acts, panicked)
    | .ok event_id =>
      match parse_event codec event_id e.payload with
      | .error _ =>
        let (acts, panicked) := processEvents codec handle rest
        (.skippedUnparsable e.name :: acts, panicked)
      | .ok ev =>
        match handle ev e.sender with
        | .ok =>
          let (acts, panicked) := processEvents codec handle rest
          (.handled ev e.sender :: acts, panicked)
        | .err err =>
          let (acts, panicked) := processEvents codec handle rest
          (.handledErr ev e.sender err :: acts, panicked)
        | .panic => ([.panicked ev e.sender], true)

/-- The action the drain takes on one raw event when no panic occurs,
used to characterize `processEvents` event by event. -/
def eventAction (codec : EventCodec)
    (handle : GuessAiEvent → Nat → HandleResult) (e : SuiEventModel) :
    PageAction :=
  match guessAiEventIdentifier_from_str e.name with
  | .error _ => .skippedUnknown e.name
  | .ok event_id =>
    match parse_event codec event_id e.payload with
    | .error _ => .skippedUnparsable e.name
    | .ok ev =>
      match handle ev e.sender with
      | .ok => .handled ev e.sender
      | .err err => .handledErr ev e.sender err
      | .panic => .panicked ev e.sender

/-- A successfully fetched `EventPage` from
`client.event_api().query_events`. -/
structure EnginePage where
  data : List SuiEventModel
  next_cursor : Option EventID
  has_next_page : Bool
deriving Repr

/-- The running state of the drain loop: the in-memory cursor, the file
system holding the cursor file, the accumulated action trace, and whether
the loop has died (fatal cursor-write error propagated by `?`, or a panic
unwinding out of a handler). -/
structure LoopSim where
  cursor : Option EventID
  fs : FsState
  trace : List PageAction
  fatal : Bool
  panicked : Bool

/-- One iteration of the page arm of `run`'s `select!` loop on a
successfully fetched page: set the in-memory cursor to `next_cursor`,
drain the events, and — when `has_next_page` is `false` — persist the
cursor to the cursor file (the call is recorded as `putCursor`; a write
failure is fatal).  A dead loop state is returned unchanged. -/
def processPage (codec : EventCodec)
    (handle : GuessAiEvent → Nat → HandleResult)
    (toml_ser : EventID → String) (path : String)
    (st : LoopSim) (page : EnginePage) : LoopSim :=
  if st.fatal || st.panicked then st
  else
    let cursor := page.next_cursor
    let (acts, panicked) := processEvents codec handle page.data
    if panicked then
      { st with cursor := cursor, trace := st.trace ++ acts, panicked := true }
    else if page.has_next_page then
      { st with cursor := cursor, trace := st.trace ++ acts }
    else
      match write_cursor_to_toml_file toml_ser cursor st.fs path with
      | .error _ =>
        { st with cursor := cursor, trace := st.trace ++ acts, fatal := true }
      | .ok fs =>
        { st with
            cursor := cursor
            fs := fs
            trace := st.trace ++ acts ++ [.putCursor cursor] }

/-- Several consecutive page iterations. -/
def processPages (codec : EventCodec)
    (handle : GuessAiEvent → Nat → HandleResult)
    (toml_ser : EventID → String) (path : String)
    (st : LoopSim) (pages : List EnginePage) : LoopSim :=
  pages.foldl (processPage codec handle toml_ser path) st

/-- The number of actual cursor-file writes in a trace: `putCursor` calls
whose cursor is `Some` (a `putCursor none` call returns without touching
the file). -/
def countFileWrites (trace : List PageAction) : Nat :=
  trace.countP fun a =>
    match a with
    | .putCursor (some _) => true
    | _ => false

/-! ## Concrete instances

Small executable instances of the abstract primitive bundles, used by the
witnesses to evaluate the theorems at concrete inputs.  They satisfy the
bundled laws but are of course not the real ciphers. -/

/-- A toy `CryptoPrimitives` instance: Diffie-Hellman by commutative
multiplication of byte sums, AEAD by byte-wise shifting. -/
def toyCrypto : CryptoPrimitives where
  diffie_hellman priv pub := [priv.sum * pub.sum]
  public_key_of priv := priv
  hkdf_sha256 salt ikm := salt ++ ikm
  aes256gcm_encrypt k n m := m.map fun b => b + (k.sum + n.sum)
  aes256gcm_decrypt k n c := some (c.map fun b => b - (k.sum + n.sum))
  blake2b bs := bs.length :: bs
  serialize_request r := [r.messages.length, r.seed.getD 0]
  serialize_response r := [r.choices.length, r.id.length]
  parse_response _ := none
  dh_comm := by
    intro a b
    simp [Nat.mul_comm]
  aes_dec_enc := by
    intro k n m
    simp [List.map_map, Function.comp_def]

/-- A toy `SignatureBackend` instance: a signature string parses when it is
nonempty, encoding its scheme in its first character; verification holds
when the signature bytes equal the message. -/
def toySigBackend : SignatureBackend where
  parse_signature s :=
    match s.data with
    | [] => none
    | c :: _ =>
      some { scheme := if c = 'e' then .ED25519
                       else if c = 'k' then .Secp256k1
                       else if c = 'r' then .Secp256r1
                       else .MultiSig
             signature_bytes := [s.length]
             public_key_bytes := [c.toNat] }
  sui_public_key_try_from_bytes _ pk := pk ≠ []
  ed25519_verify _ sig msg := sig = msg
  secp256k1_verify _ sig msg := sig = msg
  secp256r1_verify _ sig msg := sig = msg

/-! ## Concrete sample data for the witnesses -/

/-- A concrete response for the witnesses. -/
def sampleResponse : ChatCompletionResponse :=
  { id := "chatcmpl-1"
    created := 1
    model := "llama"
    choices := [{ message := { role := "assistant", content := "ok", name := none } }] }

/-- A concrete request for the witnesses. -/
def sampleRequest : ChatCompletionRequest :=
  { model := "llama"
    messages := [{ role := "system", content := "prompt", name := none }]
    seed := some 42 }

/-- A concrete configuration with the hint interval of the spec scenarios
(`hint_wait_count = 50`). -/
def sampleConfig : GuessAiConfig :=
  { atoma_api_key := "key"
    twitter_consumer_key := "ck"
    twitter_consumer_secret := "cs"
    twitter_access_token := "at"
    twitter_access_token_secret := "ats"
    cursor_path := "cursor.toml"
    hint_wait_count := 50
    http_rpc_node_addr := "http://localhost:9000"
    model := "llama"
    limit := some 100
    guess_ai_package_id := "0x1"
    guess_ai_db := "0x2"
    request_timeout := some 5000
    max_concurrent_requests := some 10
    sui_config_path := "sui.yaml" }

/-- `sampleConfig` with a zero hint interval. -/
def sampleConfigZeroHint : GuessAiConfig :=
  { sampleConfig with hint_wait_count := 0 }

/-- A concrete engine state for the witnesses. -/
def sampleEngine : GuessAiEngine :=
  { atoma_sdk := 0
    client_private_key := [1, 2, 3]
    config := sampleConfig
    filter := 0
    random_seed := 99
    secret := "kaleidoscope"
    sui_client_ctx := 0
    twitter_client := 0
    shutdown_signal := 0 }

/-- A serde oracle whose guess judgment always parses as correct. -/
def parseGuessCorrect : String → Option GuessPromptResponse :=
  fun _ => some { is_correct := true, explanation := "semantic match" }

/-- A serde oracle whose guess judgment always parses as incorrect. -/
def parseGuessWrong : String → Option GuessPromptResponse :=
  fun _ => some { is_correct := false, explanation := "not the secret" }

/-- A serde oracle whose hint response always parses. -/
def parseHintSome : String → Option HintPromptResponse :=
  fun _ => some { hint := "Whispers Through Walls" }

/-- Splits a character list at the first hash mark. -/
def splitAtHash : List Char → Option (List Char × List Char)
  | [] => none
  | c :: rest =>
    if c = '#' then some ([], rest)
    else
      match splitAtHash rest with
      | none => none
      | some (l, r) => some (c :: l, r)

/-- A concrete injective serialization of `EventID` (digest, hash mark,
unary sequence number) standing in for the TOML codec, with an executable
inverse. -/
def toyCursorSer (c : EventID) : String :=
  c.tx_digest ++ "#" ++ String.mk (List.replicate c.event_seq 'x')

/-- The executable inverse of `toyCursorSer`. -/
def toyCursorDe (s : String) : Option EventID :=
  match splitAtHash s.data with
  | none => none
  | some (digest, seq) =>
    if seq.all (fun c => c = 'x') then
      some { tx_digest := String.mk digest, event_seq := seq.length }
    else none

/-- A file system in which every path is absent and every write succeeds. -/
def emptyFs : FsState :=
  { read := fun _ => .absent
    writeFails := fun _ => false }

/-- A concrete event payload codec whose decoders all succeed on the
payload string "good" and fail otherwise. -/
def sampleEventCodec : EventCodec :=
  { decode_publish := fun p =>
      if p = "good" then some { id := "obj", manager_id := "mgr" } else none
    decode_new_guess := fun p =>
      if p = "good" then
        some { fee := 100, guess := "kaleidoscope", guess_count := 5,
               treasury_pool_balance := 1000 }
      else none
    decode_rotate := fun p =>
      if p = "good" then some { epoch := 7, random_seed := 42 } else none
    decode_resubmitted := fun p =>
      if p = "good" then some { epoch := 7, tdx_quote_v4 := [0], public_key_bytes := [1] }
      else none }

/-- A handler oracle for which every event handles cleanly. -/
def handleAllOk : GuessAiEvent → Nat → HandleResult :=
  fun _ _ => .ok

/-- A handler oracle panicking on `NewGuessEvent` — the behaviour of the
real handler on a winning guess, whose social-media path is an
unconditional `todo!()`. -/
def handlePanicOnGuess : GuessAiEvent → Nat → HandleResult :=
  fun ev _ =>
    match ev with
    | .NewGuessEvent _ => .panic
    | _ => .ok

/-- A fresh loop state for the page-drain simulations. -/
def initLoopSim (cursor : Option EventID) (fs : FsState) : LoopSim :=
  { cursor := cursor, fs := fs, trace := [], fatal := false, panicked := false }

/-! ## Helper lemmas -/

/-- `verify_signature` succeeds exactly when the specification predicate
`signature_verifies` holds. -/
theorem verify_signature_eq_ok_iff (B : SignatureBackend)
    (base64_signature : String) (body_hash : Bytes) :
    verify_signature B base64_signature body_hash = .ok () ↔
      signature_verifies B base64_signature body_hash = true := by
  unfold verify_signature signature_verifies
  cases hp : B.parse_signature base64_signature with
  | none => simp
  | some sig =>
    obtain ⟨scheme, sig_bytes, pk_bytes⟩ := sig
    cases hv : B.sui_public_key_try_from_bytes scheme pk_bytes with
    | false => simp [hv]
    | true => cases scheme <;> simp [hv]

/-- `verify_signature` either succeeds or fails with a
`VerifyResponseHashAndSignatureError`. -/
theorem verify_signature_ok_or_error (B : SignatureBackend)
    (base64_signature : String) (body_hash : Bytes) :
    verify_signature B base64_signature body_hash = .ok () ∨
      ∃ msg, verify_signature B base64_signature body_hash =
        .error (.VerifyResponseHashAndSignatureError msg) := by
  unfold verify_signature
  cases hp : B.parse_signature base64_signature with
  | none => exact .inr ⟨_, rfl⟩
  | some sig =>
    obtain ⟨scheme, sig_bytes, pk_bytes⟩ := sig
    cases hv : B.sui_public_key_try_from_bytes scheme pk_bytes with
    | false => simp [hv]
    | true =>
      cases scheme
      case ED25519 =>
        cases hb : B.ed25519_verify pk_bytes sig_bytes body_hash with
        | true => exact .inl (by simp [hv, hb])
        | false => exact .inr ⟨"Failed to verify signature", by simp [hv, hb]⟩
      case Secp256k1 =>
        cases hb : B.secp256k1_verify pk_bytes sig_bytes body_hash with
        | true => exact .inl (by simp [hv, hb])
        | false => exact .inr ⟨"Failed to verify signature", by simp [hv, hb]⟩
      case Secp256r1 =>
        cases hb : B.secp256r1_verify pk_bytes sig_bytes body_hash with
        | true => exact .inl (by simp [hv, hb])
        | false => exact .inr ⟨"Failed to verify signature", by simp [hv, hb]⟩
      all_goals exact .inr ⟨"Currently unsupported signature scheme", by simp [hv]⟩

/-! ## Claim C1 -/

/-- Claim C1: response verification recomputes the BLAKE2b-256 digest of the
response body and fails exactly when the server-supplied hash is absent, the
signature is absent, the recomputed digest differs from the server-supplied
hash, or the signature fails to verify over that digest under its embedded
scheme (Ed25519 / Secp256k1 / Secp256r1, any other scheme unsupported); it
succeeds exactly when both the hash check and the signature check pass, and
any failure is an error rejecting the response. -/
theorem C1_verify_response_characterization
    (C : CryptoPrimitives) (B : SignatureBackend)
    (body : ChatCompletionResponse) (response_hash : Option Bytes)
    (signature : Option String) :
    (verify_response_hash_and_signature C B body response_hash signature = .ok () ↔
      (response_hash = some (C.blake2b (C.serialize_response body)) ∧
        ∃ s, signature = some s ∧
          signature_verifies B s (C.blake2b (C.serialize_response body)) = true)) ∧
    (verify_response_hash_and_signature C B body response_hash signature ≠ .ok () →
      ∃ msg, verify_response_hash_and_signature C B body response_hash signature =
        .error (.VerifyResponseHashAndSignatureError msg)) := by
  cases response_hash with
  | none =>
    refine ⟨by cases signature <;> simp [verify_response_hash_and_signature], ?_⟩
    intro _
    exact ⟨"Response hash or signature is missing",
      by cases signature <;> simp [verify_response_hash_and_signature]⟩
  | some h =>
    cases signature with
    | none =>
      exact ⟨by simp [verify_response_hash_and_signature],
        fun _ => ⟨"Response hash or signature is missing",
          by simp [verify_response_hash_and_signature]⟩⟩
    | some s =>
      by_cases hEq : h = C.blake2b (C.serialize_response body)
      · subst hEq
        constructor
        · simpa [verify_response_hash_and_signature] using
            verify_signature_eq_ok_iff B s (C.blake2b (C.serialize_response body))
        · intro hne
          rcases verify_signature_ok_or_error B s
              (C.blake2b (C.serialize_response body)) with hok | ⟨msg, herr⟩
          · exact absurd (by simp [verify_response_hash_and_signature, hok]) hne
          · exact ⟨msg, by simp [verify_response_hash_and_signature, herr]⟩
      · constructor
        · simp [verify_response_hash_and_signature, hEq]
        · intro _
          exact ⟨"Response hash does not match computed response hash",
            by simp [verify_response_hash_and_signature, hEq]⟩

/-- Witness for C1: at a concrete response whose supplied hash matches but
whose signature carries an unsupported scheme, verification is not `ok` and
the characterization yields the concrete rejection error. -/
theorem C1_verify_response_characterization_witness :
    ∃ msg,
      verify_response_hash_and_signature toyCrypto toySigBackend sampleResponse
          (some (toyCrypto.blake2b (toyCrypto.serialize_response sampleResponse)))
          (some "x") =
        .error (.VerifyResponseHashAndSignatureError msg) :=
  (C1_verify_response_characterization toyCrypto toySigBackend sampleResponse
      (some (toyCrypto.blake2b (toyCrypto.serialize_response sampleResponse)))
      (some "x")).2
    (by intro h; exact Except.noConfusion h)

/-! ## Claim C2 -/

/-- Claim C2: for every X25519 key pair (A, B), every request, every nonce
and salt of the prescribed sizes, encrypting the request with A's private
key and B's public key and then decrypting the resulting ciphertext with B's
private key and A's public key under the identical nonce and salt recovers
the original serialized request plaintext. -/
theorem C2_encrypt_decrypt_roundtrip (C : CryptoPrimitives)
    (request : ChatCompletionRequest) (a_private_key b_private_key : Bytes)
    (model_name : String) (nonce salt : Bytes) (stack_small_id : Nat)
    (hnonce : nonce.length = NONCE_SIZE) (hsalt : salt.length = SALT_SIZE) :
    decrypt_chat_completions_plaintext C
      (encrypt_chat_completions_request C request a_private_key
        (C.public_key_of b_private_key) model_name nonce salt
        stack_small_id).ciphertext
      b_private_key (C.public_key_of a_private_key) nonce salt =
      some (C.serialize_request request) := by
  unfold decrypt_chat_completions_plaintext encrypt_chat_completions_request
  rw [C.dh_comm b_private_key a_private_key]
  exact C.aes_dec_enc _ _ _

/-- Witness for C2: the round trip evaluated in the toy crypto model at a
12-byte nonce and 16-byte salt. -/
theorem C2_encrypt_decrypt_roundtrip_witness :
    (List.replicate 12 7).length = NONCE_SIZE ∧
    (List.replicate 16 9).length = SALT_SIZE ∧
    decrypt_chat_completions_plaintext toyCrypto
      (encrypt_chat_completions_request toyCrypto sampleRequest [3]
        (toyCrypto.public_key_of [5]) "llama" (List.replicate 12 7)
        (List.replicate 16 9) 11).ciphertext
      [5] (toyCrypto.public_key_of [3]) (List.replicate 12 7)
      (List.replicate 16 9) =
      some (toyCrypto.serialize_request sampleRequest) :=
  ⟨by decide, by decide,
    C2_encrypt_decrypt_roundtrip toyCrypto sampleRequest [3] [5] "llama"
      (List.replicate 12 7) (List.replicate 16 9) 11 (by decide) (by decide)⟩

/-! ## Claim C3 -/

/-- Claim C3: for every `RotateSecret` event, if secret generation succeeds
the engine afterwards holds the freshly generated client key, the event's
random seed and the newly generated secret, every other field (config,
filter, SDK handle, Sui context, Twitter client, shutdown signal)
unchanged; if secret generation fails the handler returns the error and the
entire engine state is unchanged. -/
theorem C3_rotate_secret_atomic_replacement (engine : GuessAiEngine)
    (event : RotateTdxQuoteEvent) (fresh_private_key : Bytes)
    (generate_secret_result : Except GenerateSecretError String) :
    (∀ secret, generate_secret_result = .ok secret →
      handle_rotate_tdx_quote_event engine event fresh_private_key
          generate_secret_result =
        ({ engine with
            client_private_key := fresh_private_key
            random_seed := event.random_seed
            secret := secret }, none) ∧
      (handle_rotate_tdx_quote_event engine event fresh_private_key
          generate_secret_result).1.config = engine.config ∧
      (handle_rotate_tdx_quote_event engine event fresh_private_key
          generate_secret_result).1.atoma_sdk = engine.atoma_sdk ∧
      (handle_rotate_tdx_quote_event engine event fresh_private_key
          generate_secret_result).1.filter = engine.filter ∧
      (handle_rotate_tdx_quote_event engine event fresh_private_key
          generate_secret_result).1.sui_client_ctx = engine.sui_client_ctx ∧
      (handle_rotate_tdx_quote_event engine event fresh_private_key
          generate_secret_result).1.twitter_client = engine.twitter_client ∧
      (handle_rotate_tdx_quote_event engine event fresh_private_key
          generate_secret_result).1.shutdown_signal = engine.shutdown_signal) ∧
    (∀ e, generate_secret_result = .error e →
      handle_rotate_tdx_quote_event engine event fresh_private_key
          generate_secret_result =
        (engine, some (.GenerateSecretError e))) := by
  constructor
  · intro secret hok
    subst hok
    simp [handle_rotate_tdx_quote_event]
  · intro e herr
    subst herr
    simp [handle_rotate_tdx_quote_event]

/-- Witness for C3: the rotation handler evaluated on the sample engine at
`RotateSecret{epoch := 7, random_seed := 42}`, once with a successful secret
generation and once with a failing one. -/
theorem C3_rotate_secret_atomic_replacement_witness :
    handle_rotate_tdx_quote_event sampleEngine { epoch := 7, random_seed := 42 }
        [9, 9] (.ok "zephyr") =
      ({ sampleEngine with
          client_private_key := [9, 9]
          random_seed := 42
          secret := "zephyr" }, none) ∧
    handle_rotate_tdx_quote_event sampleEngine { epoch := 7, random_seed := 42 }
        [9, 9] (.error (.FailedToParseSecretPromptResponse "bad json")) =
      (sampleEngine,
        some (.GenerateSecretError (.FailedToParseSecretPromptResponse "bad json"))) :=
  ⟨((C3_rotate_secret_atomic_replacement sampleEngine
      { epoch := 7, random_seed := 42 } [9, 9] (.ok "zephyr")).1 "zephyr" rfl).1,
    (C3_rotate_secret_atomic_replacement sampleEngine
      { epoch := 7, random_seed := 42 } [9, 9]
      (.error (.FailedToParseSecretPromptResponse "bad json"))).2
      (.FailedToParseSecretPromptResponse "bad json") rfl⟩

/-! ## Claim C4 -/

/-- Claim C4: for the `NewGuess` event with guess "kaleidoscope", fee 100,
guess count 5 and treasury balance 1000, when the judgment response parses
with `is_correct = true`, handling the event makes exactly one
treasury-withdrawal call directed at the guesser's sender address and no
hint-generation call. -/
theorem C4_winning_guess_single_payout
    (parse_guess : String → Option GuessPromptResponse)
    (parse_hint : String → Option HintPromptResponse)
    (config : GuessAiConfig) (sender : Nat) (judge_content : String)
    (answer : GuessPromptResponse)
    (withdraw_result : Except SuiClientError String)
    (hint_chat : Except GuessAiEngineError String)
    (hconfig : config.hint_wait_count = 50)
    (hparse : parse_guess judge_content = some answer)
    (hcorrect : answer.is_correct = true) :
    (handle_new_guess_event parse_guess parse_hint config
        { fee := 100, guess := "kaleidoscope", guess_count := 5,
          treasury_pool_balance := 1000 }
        sender (.ok judge_content) withdraw_result hint_chat).1 =
      [.judgeGuessCall, .withdrawCall sender] ∧
    ((handle_new_guess_event parse_guess parse_hint config
        { fee := 100, guess := "kaleidoscope", guess_count := 5,
          treasury_pool_balance := 1000 }
        sender (.ok judge_content) withdraw_result hint_chat).1.count
      (.withdrawCall sender)) = 1 ∧
    .hintCall ∉
      (handle_new_guess_event parse_guess parse_hint config
        { fee := 100, guess := "kaleidoscope", guess_count := 5,
          treasury_pool_balance := 1000 }
        sender (.ok judge_content) withdraw_result hint_chat).1 := by
  cases withdraw_result with
  | error e => simp [handle_new_guess_event, hparse, hcorrect, List.count_cons]
  | ok tx => simp [handle_new_guess_event, hparse, hcorrect, List.count_cons]

/-- Witness for C4: the scenario evaluated with concrete oracles — the
judgment parses as correct and the withdrawal succeeds. -/
theorem C4_winning_guess_single_payout_witness :
    sampleConfig.hint_wait_count = 50 ∧
    parseGuessCorrect "judged" =
      some { is_correct := true, explanation := "semantic match" } ∧
    (handle_new_guess_event parseGuessCorrect parseHintSome sampleConfig
        { fee := 100, guess := "kaleidoscope", guess_count := 5,
          treasury_pool_balance := 1000 }
        77 (.ok "judged") (.ok "txhash") (.ok "hint")).1 =
      [.judgeGuessCall, .withdrawCall 77] :=
  ⟨rfl, rfl,
    (C4_winning_guess_single_payout parseGuessCorrect parseHintSome sampleConfig
      77 "judged" { is_correct := true, explanation := "semantic match" }
      (.ok "txhash") (.ok "hint") rfl rfl rfl).1⟩

/-! ## Claim C5 -/

/-- Counterexample to C5 as stated: at a `NewGuess` event with
`guess_count = 50` and hint interval 50 whose guess is judged correct, the
handler makes no hint-generation call although `50 % 50 = 0` — the winning
path returns (or panics at the winner `todo!()`) before the hint check is
reached.  So a hint call is not made whenever
`guess_count % hint_interval = 0`. -/
theorem C5_hint_trigger_counterexample :
    sampleConfig.hint_wait_count = 50 ∧
    50 % sampleConfig.hint_wait_count = 0 ∧
    .hintCall ∉
      (handle_new_guess_event parseGuessCorrect parseHintSome sampleConfig
        { fee := 100, guess := "kaleidoscope", guess_count := 50,
          treasury_pool_balance := 1000 }
        77 (.ok "judged") (.ok "txhash") (.ok "hint")).1 := by
  decide

/-- Claim C5 (amended): for every `NewGuess` event whose judgment call
succeeds and parses with `is_correct = false`, and a positive hint
interval, a hint-generation call is made if and only if
`guess_count % hint_wait_count = 0`; in particular, with interval 50,
guess counts 50, 100 and 150 trigger hint generation while 49 and 101 do
not. -/
theorem C5_hint_trigger_amended
    (parse_guess : String → Option GuessPromptResponse)
    (parse_hint : String → Option HintPromptResponse)
    (config : GuessAiConfig) (event : NewGuessEvent) (sender : Nat)
    (judge_content : String) (answer : GuessPromptResponse)
    (withdraw_result : Except SuiClientError String)
    (hint_chat : Except GuessAiEngineError String)
    (hparse : parse_guess judge_content = some answer)
    (hwrong : answer.is_correct = false)
    (hpos : 0 < config.hint_wait_count) :
    .hintCall ∈
        (handle_new_guess_event parse_guess parse_hint config event sender
          (.ok judge_content) withdraw_result hint_chat).1 ↔
      event.guess_count % config.hint_wait_count = 0 := by
  have h0 : config.hint_wait_count ≠ 0 := Nat.pos_iff_ne_zero.mp hpos
  by_cases hmod : event.guess_count % config.hint_wait_count = 0
  · cases hint_chat with
    | error e => simp [handle_new_guess_event, hparse, hwrong, h0, hmod]
    | ok c =>
      cases hph : parse_hint c <;>
        simp [handle_new_guess_event, hparse, hwrong, h0, hmod, hph]
  · simp [handle_new_guess_event, hparse, hwrong, h0, hmod]

/-- Witness for the amended C5: an incorrectly judged guess at
`guess_count = 50` with interval 50 does trigger the hint call. -/
theorem C5_hint_trigger_amended_witness :
    parseGuessWrong "judged" =
      some { is_correct := false, explanation := "not the secret" } ∧
    0 < sampleConfig.hint_wait_count ∧
    (.hintCall ∈
        (handle_new_guess_event parseGuessWrong parseHintSome sampleConfig
          { fee := 100, guess := "pizza", guess_count := 50,
            treasury_pool_balance := 1000 }
          77 (.ok "judged") (.ok "txhash") (.ok "hint")).1 ↔
      50 % sampleConfig.hint_wait_count = 0) :=
  ⟨rfl, by decide,
    C5_hint_trigger_amended parseGuessWrong parseHintSome sampleConfig
      { fee := 100, guess := "pizza", guess_count := 50,
        treasury_pool_balance := 1000 }
      77 "judged" { is_correct := false, explanation := "not the secret" }
      (.ok "txhash") (.ok "hint") rfl rfl (by decide)⟩

/-! ## Claim C9 -/

/-- Claim C9: the hint check evaluates `guess_count % hint_wait_count` with
no guard on the divisor, so with `hint_wait_count = 0` handling any
`NewGuess` event whose guess is judged incorrect panics with a
remainder-by-zero instead of returning an error. -/
theorem C9_zero_hint_interval_div_zero_panic
    (parse_guess : String → Option GuessPromptResponse)
    (parse_hint : String → Option HintPromptResponse)
    (config : GuessAiConfig) (event : NewGuessEvent) (sender : Nat)
    (judge_content : String) (answer : GuessPromptResponse)
    (withdraw_result : Except SuiClientError String)
    (hint_chat : Except GuessAiEngineError String)
    (hzero : config.hint_wait_count = 0)
    (hparse : parse_guess judge_content = some answer)
    (hwrong : answer.is_correct = false) :
    handle_new_guess_event parse_guess parse_hint config event sender
        (.ok judge_content) withdraw_result hint_chat =
      ([.judgeGuessCall], .panicDivZero) := by
  simp [handle_new_guess_event, hparse, hwrong, hzero]

/-- Witness for C9: the division panic evaluated at a concrete incorrect
guess under a zero hint interval. -/
theorem C9_zero_hint_interval_div_zero_panic_witness :
    sampleConfigZeroHint.hint_wait_count = 0 ∧
    handle_new_guess_event parseGuessWrong parseHintSome sampleConfigZeroHint
        { fee := 100, guess := "pizza", guess_count := 5,
          treasury_pool_balance := 1000 }
        77 (.ok "judged") (.ok "txhash") (.ok "hint") =
      ([.judgeGuessCall], .panicDivZero) :=
  ⟨rfl,
    C9_zero_hint_interval_div_zero_panic parseGuessWrong parseHintSome
      sampleConfigZeroHint
      { fee := 100, guess := "pizza", guess_count := 5,
        treasury_pool_balance := 1000 }
      77 "judged" { is_correct := false, explanation := "not the secret" }
      (.ok "txhash") (.ok "hint") rfl rfl rfl⟩

/-! ## Claim C6 -/

/-- Claim C6: the cursor store round-trips: for every position and every
path, after a successful `put` a `get` returns `Some` of that position;
`get` on a store whose file does not exist returns `None` (start of
history) rather than an error; any other read failure, and any parse
failure, is an error. -/
theorem C6_cursor_store_roundtrip
    (toml_ser : EventID → String) (toml_de : String → Option EventID)
    (fs : FsState) (path : String) (x : EventID)
    (hroundtrip : toml_de (toml_ser x) = some x)
    (hwrite : fs.writeFails path = false) :
    (∃ fs2, write_cursor_to_toml_file toml_ser (some x) fs path = .ok fs2 ∧
      read_cursor_from_toml_file toml_de fs2 path = .ok (some x)) ∧
    (fs.read path = .absent →
      read_cursor_from_toml_file toml_de fs path = .ok none) ∧
    (fs.read path = .ioError →
      read_cursor_from_toml_file toml_de fs path = .error (.CursorFileError path)) ∧
    (∀ contents, fs.read path = .present contents → toml_de contents = none →
      read_cursor_from_toml_file toml_de fs path =
        .error (.DeserializeCursorError contents)) := by
  refine ⟨⟨{ fs with
              read := fun p => if p = path then .present (toml_ser x) else fs.read p },
            ?_, ?_⟩, ?_, ?_, ?_⟩
  · simp [write_cursor_to_toml_file, hwrite]
  · simp [read_cursor_from_toml_file, hroundtrip]
  · intro h
    simp [read_cursor_from_toml_file, h]
  · intro h
    simp [read_cursor_from_toml_file, h]
  · intro contents h hde
    simp [read_cursor_from_toml_file, h, hde]

/-- Witness for C6: the round trip evaluated with the concrete executable
TOML codec on the cursor `{tx_digest := "ab", event_seq := 7}` over the
empty file system. -/
theorem C6_cursor_store_roundtrip_witness :
    toyCursorDe (toyCursorSer { tx_digest := "ab", event_seq := 7 }) =
      some { tx_digest := "ab", event_seq := 7 } ∧
    emptyFs.writeFails "cursor.toml" = false ∧
    (∃ fs2, write_cursor_to_toml_file toyCursorSer
        (some { tx_digest := "ab", event_seq := 7 }) emptyFs "cursor.toml" =
          .ok fs2 ∧
      read_cursor_from_toml_file toyCursorDe fs2 "cursor.toml" =
        .ok (some { tx_digest := "ab", event_seq := 7 })) ∧
    read_cursor_from_toml_file toyCursorDe emptyFs "cursor.toml" = .ok none :=
  ⟨by decide, rfl,
    (C6_cursor_store_roundtrip toyCursorSer toyCursorDe emptyFs "cursor.toml"
      { tx_digest := "ab", event_seq := 7 } (by decide) rfl).1,
    (C6_cursor_store_roundtrip toyCursorSer toyCursorDe emptyFs "cursor.toml"
      { tx_digest := "ab", event_seq := 7 } (by decide) rfl).2.1 rfl⟩

/-! ## Claim C10 -/

/-- Claim C10: for every path, the cursor write with `cursor = None`
returns `Ok` and performs no file write at all — the entire file system,
in particular any previously persisted checkpoint file, is returned
unchanged (even on paths whose writes would fail), so a drained batch
whose `next_cursor` is `None` silently preserves the stale checkpoint. -/
theorem C10_write_none_is_noop (toml_ser : EventID → String)
    (fs : FsState) (path : String) :
    write_cursor_to_toml_file toml_ser none fs path = .ok fs := rfl

/-! ## Loop helper lemmas -/

/-- When no handler panics, the drain processes every event of the page in
order, producing exactly the per-event action. -/
theorem processEvents_eq_map_of_no_panic (codec : EventCodec)
    (handle : GuessAiEvent → Nat → HandleResult)
    (hnp : ∀ ev s, handle ev s ≠ .panic) (l : List SuiEventModel) :
    processEvents codec handle l = (l.map (eventAction codec handle), false) := by
  induction l with
  | nil => rfl
  | cons e rest ih =>
    unfold processEvents
    cases hid : guessAiEventIdentifier_from_str e.name with
    | error err => simp [ih, eventAction, hid]
    | ok event_id =>
      cases hpe : parse_event codec event_id e.payload with
      | error err => simp [ih, eventAction, hid, hpe]
      | ok ev =>
        cases hh : handle ev e.sender with
        | ok => simp [ih, eventAction, hid, hpe, hh]
        | err err => simp [ih, eventAction, hid, hpe, hh]
        | panic => exact absurd hh (hnp ev e.sender)

/-- The drain itself never writes the cursor file: its trace contains no
`putCursor` action. -/
theorem countFileWrites_processEvents (codec : EventCodec)
    (handle : GuessAiEvent → Nat → HandleResult) (l : List SuiEventModel) :
    countFileWrites (processEvents codec handle l).1 = 0 := by
  induction l with
  | nil => rfl
  | cons e rest ih =>
    have ih2 :
        List.countP
          (fun a =>
            match a with
            | PageAction.putCursor (some _) => true
            | _ => false)
          (processEvents codec handle rest).1 = 0 := ih
    unfold processEvents
    cases hid : guessAiEventIdentifier_from_str e.name with
    | error err => simp [countFileWrites, List.countP_cons, ih2]
    | ok event_id =>
      cases hpe : parse_event codec event_id e.payload with
      | error err => simp [countFileWrites, List.countP_cons, hpe, ih2]
      | ok ev =>
        cases hh : handle ev e.sender with
        | ok => simp [countFileWrites, List.countP_cons, hpe, hh, ih2]
        | err err => simp [countFileWrites, List.countP_cons, hpe, hh, ih2]
        | panic => simp [countFileWrites, List.countP_cons, hpe, hh]

/-! ## Claim C7 -/

/-- Counterexample to C7 as stated: two consecutive pages, the first with
`has_next_page = true` and the second with `has_next_page = false`, after
which the cursor file has been written zero times, not exactly once — the
second page's `next_cursor` is `None` and `write_cursor_to_toml_file`
writes nothing for a `None` cursor. -/
theorem C7_cursor_write_once_counterexample :
    (EnginePage.mk [] (some { tx_digest := "tx", event_seq := 1 }) true).has_next_page
        = true ∧
    (EnginePage.mk [] none false).has_next_page = false ∧
    countFileWrites
        (processPages sampleEventCodec handleAllOk toyCursorSer "cursor.toml"
          (initLoopSim none emptyFs)
          [EnginePage.mk [] (some { tx_digest := "tx", event_seq := 1 }) true,
            EnginePage.mk [] none false]).trace = 0 ∧
    (processPages sampleEventCodec handleAllOk toyCursorSer "cursor.toml"
        (initLoopSim none emptyFs)
        [EnginePage.mk [] (some { tx_digest := "tx", event_seq := 1 }) true,
          EnginePage.mk [] none false]).fs.read "cursor.toml" = .absent := by
  refine ⟨rfl, rfl, rfl, rfl⟩

/-- Claim C7 (amended): over two consecutive pages processed without a
handler panic and with a writable cursor file, where the first page has
`has_next_page = true` and the second `has_next_page = false`: no cursor
file write happens after the first page; and after the second page the
cursor file has been written exactly once — as the final action, right
after the second page's events — when the second page's `next_cursor` is
`Some`, and zero times (the file system left unchanged) when it is
`None`. -/
theorem C7_cursor_write_once_amended
    (codec : EventCodec) (handle : GuessAiEvent → Nat → HandleResult)
    (toml_ser : EventID → String) (path : String) (fs : FsState)
    (c0 : Option EventID) (p1 p2 : EnginePage)
    (h1 : p1.has_next_page = true) (h2 : p2.has_next_page = false)
    (hnp1 : (processEvents codec handle p1.data).2 = false)
    (hnp2 : (processEvents codec handle p2.data).2 = false)
    (hw : fs.writeFails path = false) :
    countFileWrites
        (processPages codec handle toml_ser path (initLoopSim c0 fs) [p1]).trace
      = 0 ∧
    (p2.next_cursor = none →
      countFileWrites
          (processPages codec handle toml_ser path (initLoopSim c0 fs)
            [p1, p2]).trace = 0 ∧
      (processPages codec handle toml_ser path (initLoopSim c0 fs)
          [p1, p2]).fs = fs) ∧
    (∀ c, p2.next_cursor = some c →
      (processPages codec handle toml_ser path (initLoopSim c0 fs)
          [p1, p2]).trace =
        (processEvents codec handle p1.data).1 ++
          (processEvents codec handle p2.data).1 ++ [.putCursor (some c)] ∧
      countFileWrites
          (processPages codec handle toml_ser path (initLoopSim c0 fs)
            [p1, p2]).trace = 1 ∧
      (processPages codec handle toml_ser path (initLoopSim c0 fs)
          [p1, p2]).fs.read path = .present (toml_ser c)) := by
  have hc1 := countFileWrites_processEvents codec handle p1.data
  have hc2 := countFileWrites_processEvents codec handle p2.data
  rcases hp1 : processEvents codec handle p1.data with ⟨acts1, pan1⟩
  rcases hp2 : processEvents codec handle p2.data with ⟨acts2, pan2⟩
  rw [hp1] at hnp1 hc1
  rw [hp2] at hnp2 hc2
  simp only at hnp1 hnp2 hc1 hc2
  subst hnp1
  subst hnp2
  have hc1b :
      List.countP
        (fun a =>
          match a with
          | PageAction.putCursor (some _) => true
          | _ => false) acts1 = 0 := hc1
  have hc2b :
      List.countP
        (fun a =>
          match a with
          | PageAction.putCursor (some _) => true
          | _ => false) acts2 = 0 := hc2
  have st1 : processPages codec handle toml_ser path (initLoopSim c0 fs) [p1] =
      { cursor := p1.next_cursor, fs := fs, trace := acts1,
        fatal := false, panicked := false } := by
    simp [processPages, processPage, initLoopSim, hp1, h1]
  refine ⟨?_, ?_, ?_⟩
  · rw [st1]
    exact hc1
  · intro hnone
    have st2 : processPages codec handle toml_ser path (initLoopSim c0 fs)
        [p1, p2] =
        { cursor := none, fs := fs, trace := acts1 ++ acts2 ++ [.putCursor none],
          fatal := false, panicked := false } := by
      have hfold : processPages codec handle toml_ser path (initLoopSim c0 fs)
          [p1, p2] =
          processPage codec handle toml_ser path
            (processPages codec handle toml_ser path (initLoopSim c0 fs) [p1])
            p2 := rfl
      rw [hfold, st1]
      simp [processPage, hp2, h2, hnone, write_cursor_to_toml_file]
    rw [st2]
    refine ⟨?_, rfl⟩
    simp [countFileWrites, List.countP_append, List.countP_cons, hc1b, hc2b]
  · intro c hsome
    have st2 : processPages codec handle toml_ser path (initLoopSim c0 fs)
        [p1, p2] =
        { cursor := some c
          fs := { fs with
                    read := fun p =>
                      if p = path then .present (toml_ser c) else fs.read p }
          trace := acts1 ++ acts2 ++ [.putCursor (some c)]
          fatal := false, panicked := false } := by
      have hfold : processPages codec handle toml_ser path (initLoopSim c0 fs)
          [p1, p2] =
          processPage codec handle toml_ser path
            (processPages codec handle toml_ser path (initLoopSim c0 fs) [p1])
            p2 := rfl
      rw [hfold, st1]
      simp [processPage, hp2, h2, hsome, write_cursor_to_toml_file, hw]
    rw [st2]
    refine ⟨by simp, ?_, by simp⟩
    simp [countFileWrites, List.countP_append, List.countP_cons, hc1b, hc2b]

/-- Witness for the amended C7: two concrete pages (first `has_more`,
second not, with a `Some` next cursor) produce exactly one cursor-file
write, as the final action after the second page. -/
theorem C7_cursor_write_once_amended_witness :
    (EnginePage.mk [] none true).has_next_page = true ∧
    (EnginePage.mk [] (some { tx_digest := "tx", event_seq := 2 }) false).has_next_page
        = false ∧
    emptyFs.writeFails "cursor.toml" = false ∧
    (processPages sampleEventCodec handleAllOk toyCursorSer "cursor.toml"
        (initLoopSim none emptyFs)
        [EnginePage.mk [] none true,
          EnginePage.mk [] (some { tx_digest := "tx", event_seq := 2 }) false]).trace =
      (processEvents sampleEventCodec handleAllOk
          (EnginePage.mk [] none true).data).1 ++
        (processEvents sampleEventCodec handleAllOk
          (EnginePage.mk [] (some { tx_digest := "tx", event_seq := 2 }) false).data).1 ++
        [.putCursor (some { tx_digest := "tx", event_seq := 2 })] ∧
    countFileWrites
        (processPages sampleEventCodec handleAllOk toyCursorSer "cursor.toml"
          (initLoopSim none emptyFs)
          [EnginePage.mk [] none true,
            EnginePage.mk [] (some { tx_digest := "tx", event_seq := 2 }) false]).trace
      = 1 :=
  ⟨rfl, rfl, rfl,
    ((C7_cursor_write_once_amended sampleEventCodec handleAllOk toyCursorSer
        "cursor.toml" emptyFs none (EnginePage.mk [] none true)
        (EnginePage.mk [] (some { tx_digest := "tx", event_seq := 2 }) false)
        rfl rfl rfl rfl rfl).2.2
      { tx_digest := "tx", event_seq := 2 } rfl).1,
    ((C7_cursor_write_once_amended sampleEventCodec handleAllOk toyCursorSer
        "cursor.toml" emptyFs none (EnginePage.mk [] none true)
        (EnginePage.mk [] (some { tx_digest := "tx", event_seq := 2 }) false)
        rfl rfl rfl rfl rfl).2.2
      { tx_digest := "tx", event_seq := 2 } rfl).2.1⟩

/-! ## Claim C8 -/

/-- Counterexample to C8 as stated: a page containing an unknown-tag event
followed by a `NewGuessEvent` whose handling panics (the real handler's
winner path is an unconditional `todo!()`) and then a `PublishEvent`: the
unknown event is skipped, but the drain aborts at the panic and the
remaining `PublishEvent` is never processed — three events, only two
actions. -/
theorem C8_skip_bad_events_counterexample :
    guessAiEventIdentifier_from_str "UnknownEvent" =
      .error (.InvalidEvent "UnknownEvent") ∧
    processEvents sampleEventCodec handlePanicOnGuess
        [{ name := "UnknownEvent", sender := 1, payload := "good" },
          { name := "NewGuessEvent", sender := 2, payload := "good" },
          { name := "PublishEvent", sender := 3, payload := "good" }] =
      ([.skippedUnknown "UnknownEvent",
        .panicked
          (.NewGuessEvent
            { fee := 100, guess := "kaleidoscope", guess_count := 5,
              treasury_pool_balance := 1000 }) 2], true) ∧
    ([{ name := "UnknownEvent", sender := 1, payload := "good" },
      { name := "NewGuessEvent", sender := 2, payload := "good" },
      { name := "PublishEvent", sender := 3, payload := "good" }] :
        List SuiEventModel).length = 3 := by
  refine ⟨rfl, rfl, rfl⟩

/-- Claim C8 (amended): for every page, provided no event's handler panics
(the winning-guess and hint `todo!()` paths), the drain never fails: every
event produces exactly one action in order — unknown-tag events are
skipped, events with unparsable payloads are skipped, the rest are handled
(errors logged) — and the in-memory cursor advances to the page's
`next_cursor` regardless. -/
theorem C8_skip_bad_events_amended
    (codec : EventCodec) (handle : GuessAiEvent → Nat → HandleResult)
    (toml_ser : EventID → String) (path : String) (fs : FsState)
    (c0 : Option EventID) (page : EnginePage)
    (hnp : ∀ ev s, handle ev s ≠ .panic) :
    processEvents codec handle page.data =
      (page.data.map (eventAction codec handle), false) ∧
    (processPage codec handle toml_ser path (initLoopSim c0 fs) page).cursor =
      page.next_cursor ∧
    (∀ e ∈ page.data, ∀ err,
      guessAiEventIdentifier_from_str e.name = .error err →
      eventAction codec handle e = .skippedUnknown e.name) ∧
    (∀ e ∈ page.data, ∀ event_id err,
      guessAiEventIdentifier_from_str e.name = .ok event_id →
      parse_event codec event_id e.payload = .error err →
      eventAction codec handle e = .skippedUnparsable e.name) := by
  have hmap := processEvents_eq_map_of_no_panic codec handle hnp page.data
  refine ⟨hmap, ?_, ?_, ?_⟩
  · cases hb : page.has_next_page with
    | true => simp [processPage, initLoopSim, hmap, hb]
    | false =>
      cases hwr : write_cursor_to_toml_file toml_ser page.next_cursor fs path with
      | error e => simp [processPage, initLoopSim, hmap, hb, hwr]
      | ok fs2 => simp [processPage, initLoopSim, hmap, hb, hwr]
  · intro e _ err heq
    simp [eventAction, heq]
  · intro e _ event_id err hid hpe
    simp [eventAction, hid, hpe]

/-- Witness for the amended C8: a concrete page holding an unknown-tag
event followed by a parsable `PublishEvent`, drained with a non-panicking
handler — the bad event is skipped, the good one handled, and the cursor
advances. -/
theorem C8_skip_bad_events_amended_witness :
    (∀ ev s, handleAllOk ev s ≠ .panic) ∧
    processEvents sampleEventCodec handleAllOk
        [{ name := "UnknownEvent", sender := 1, payload := "good" },
          { name := "PublishEvent", sender := 2, payload := "good" }] =
      ([.skippedUnknown "UnknownEvent",
        .handled (.PublishEvent { id := "obj", manager_id := "mgr" }) 2], false) ∧
    (processPage sampleEventCodec handleAllOk toyCursorSer "cursor.toml"
        (initLoopSim none emptyFs)
        (EnginePage.mk
          [{ name := "UnknownEvent", sender := 1, payload := "good" },
            { name := "PublishEvent", sender := 2, payload := "good" }]
          (some { tx_digest := "tx", event_seq := 5 }) false)).cursor =
      some { tx_digest := "tx", event_seq := 5 } :=
  ⟨fun _ _ h => HandleResult.noConfusion h,
    by
      rw [(C8_skip_bad_events_amended sampleEventCodec handleAllOk toyCursorSer
          "cursor.toml" emptyFs none
          (EnginePage.mk
            [{ name := "UnknownEvent", sender := 1, payload := "good" },
              { name := "PublishEvent", sender := 2, payload := "good" }]
            (some { tx_digest := "tx", event_seq := 5 }) false)
          (fun _ _ h => HandleResult.noConfusion h)).1]
      rfl,
    (C8_skip_bad_events_amended sampleEventCodec handleAllOk toyCursorSer
        "cursor.toml" emptyFs none
        (EnginePage.mk
          [{ name := "UnknownEvent", sender := 1, payload := "good" },
            { name := "PublishEvent", sender := 2, payload := "good" }]
          (some { tx_digest := "tx", event_seq := 5 }) false)
        (fun _ _ h => HandleResult.noConfusion h)).2.1⟩

end AtomaColosseum
